import Mathlib

/-!
Verification of the CSV filter/aggregation core (`script.py`).

Shallow embedding of the core functions of `src/pythonProject/script.py`:
`parse_condition`, `parse_aggregation`, `apply_filter`, `apply_aggregation`.

Modelling choices:
* A `Row` is an association list from column name to raw cell string
  (Python's `dict` row produced by `csv.DictReader`).
* Python exceptions / `sys.exit` calls are modelled by `Except Err`,
  with one `Err` constructor per distinct failure site
  (the error taxonomy of the specification).
* Python `float` values are modelled by exact rationals `ℚ`; the
  builtin `float(s)` conversion is modelled by `pyFloat`, covering the
  finite decimal-literal grammar (optional sign, digits, decimal point,
  exponent) of Python's `float` constructor.
* Python string comparison (`<`, `>` on `str`) is lexicographic by
  code point, modelled by `lexLt` on the character lists.
-/

/-- Error taxonomy: one constructor per failure site of the source. -/
inductive Err where
  /-- `parse_condition` found no operator token. -/
  | malformedCondition (s : String)
  /-- `parse_aggregation` found no `=`. -/
  | malformedAggregation (s : String)
  /-- `parse_aggregation`: function name not in `avg`/`min`/`max`. -/
  | unsupportedFunction (f : String)
  /-- column absent from the first row's keys. -/
  | unknownColumn (c : String)
  /-- `apply_filter`: a cell failed to coerce to a number. -/
  | nonNumericCell (v c : String)
  /-- `apply_aggregation`: a cell failed to coerce to a number. -/
  | nonNumericColumn (v c : String)
  /-- Python `row[column]` on a missing key (uncaught `KeyError`). -/
  | keyError (c : String)
  /-- Python `data[0]` on an empty list (uncaught `IndexError`). -/
  | indexError
  deriving Repr, DecidableEq

/-- A CSV row: association list from column name to raw cell string. -/
abbrev Row := List (String × String)

/-- Python `column in row` (membership among the dict's keys). -/
def Row.hasCol (r : Row) (c : String) : Bool :=
  r.any (fun p => p.1 == c)

/-- Python `row[column]`: first binding of the key, if any. -/
def Row.get (r : Row) (c : String) : Option String :=
  (r.find? (fun p => p.1 == c)).map (fun p => p.2)

/-- The cell of `r` under column `c`, defaulting to `""` (used only in
specification-side statements where the column is known to be present). -/
def Row.cell (r : Row) (c : String) : String :=
  (r.get c).getD ""

/-- Split a character list at the first occurrence of the pattern `pat`,
returning the parts before and after it; `none` if `pat` does not occur.
Models Python `s.split(pat, 1)` (for non-empty `pat`, which always yields
two parts exactly when `pat` occurs in `s`). -/
def splitOnceAux (pat : List Char) : List Char → Option (List Char × List Char)
  | [] => if pat = [] then some ([], []) else none
  | c :: cs =>
    if pat.isPrefixOf (c :: cs) then some ([], (c :: cs).drop pat.length)
    else match splitOnceAux pat cs with
      | some (l, r) => some (c :: l, r)
      | none => none

/-- Python `s.split(pat, 1)` restricted to the case `pat in s`. -/
def pySplitOnce (s pat : String) : Option (String × String) :=
  match splitOnceAux pat.data s.data with
  | some (l, r) => some (String.mk l, String.mk r)
  | none => none

/-- Python `pat in s` (substring containment, for non-empty `pat`). -/
def strContains (s pat : String) : Bool :=
  (pySplitOnce s pat).isSome

/-- Python `s.strip()` (surrounding-whitespace removal), computed on
the character list. -/
def pyStrip (s : String) : String :=
  String.mk (((s.data.dropWhile Char.isWhitespace).reverse.dropWhile
    Char.isWhitespace).reverse)

/-- Python `s.lower()` (ASCII lower-casing), computed on the
character list. -/
def pyLower (s : String) : String :=
  String.mk (s.data.map Char.toLower)

/-- The operator list of `parse_condition`, in source order. -/
def operators : List String := [">=", "<=", ">", "<", "==", "="]

/-- The loop body of `parse_condition`: try each operator in order;
on the first operator occurring in the string, split at its first
occurrence, trim both parts and normalize `=` to `==`. -/
def condLoop : List String → String → Option (String × String × String)
  | [], _ => none
  | op :: rest, s =>
    match pySplitOnce s op with
    | some (l, r) =>
      some (pyStrip l, (if op = "=" then "==" else op), pyStrip r)
    | none => condLoop rest s

/-- Function `parse_condition` of `script.py` (lines 7–33). -/
def parse_condition (s : String) : Except Err (String × String × String) :=
  match condLoop operators s with
  | some t => Except.ok t
  | none => Except.error (Err.malformedCondition s)

/-- Function `parse_aggregation` of `script.py` (lines 36–61). -/
def parse_aggregation (s : String) : Except Err (String × String) :=
  match pySplitOnce s "=" with
  | none => Except.error (Err.malformedAggregation s)
  | some (f, c) =>
    let fn := pyLower (pyStrip f)
    let column := pyStrip c
    if fn = "avg" ∨ fn = "min" ∨ fn = "max" then Except.ok (fn, column)
    else Except.error (Err.unsupportedFunction fn)

/-- Value of digit characters read as a base-10 numeral. -/
def digitsToNat (l : List Char) : Nat :=
  l.foldl (fun n c => n * 10 + (c.toNat - 48)) 0

/-- Leading digits of a character list, and the remainder. -/
def takeDigits (l : List Char) : List Char × List Char :=
  (l.takeWhile Char.isDigit, l.dropWhile Char.isDigit)

/-- Optional sign: `+`/`-` prefix, with the sign as `1` or `-1`. -/
def parseSign : List Char → Int × List Char
  | '+' :: rest => (1, rest)
  | '-' :: rest => (-1, rest)
  | l => (1, l)

/-- Mantissa of a decimal literal: `digits [. digits]` or `. digits`,
with at least one digit overall; returned as a numerator together with
a power-of-ten denominator, and the remaining characters. -/
def parseMantissa (l : List Char) : Option (Nat × Nat × List Char) :=
  let ip := (takeDigits l).1
  let rest := (takeDigits l).2
  match rest with
  | '.' :: rest2 =>
    let fp := (takeDigits rest2).1
    let rest3 := (takeDigits rest2).2
    if ip = [] ∧ fp = [] then none
    else some (digitsToNat ip * 10 ^ fp.length + digitsToNat fp, 10 ^ fp.length, rest3)
  | _ => if ip = [] then none else some (digitsToNat ip, 1, rest)

/-- Optional exponent part `([eE] [+-]? digits)?`. -/
def parseExp : List Char → Option (Int × List Char)
  | [] => some (0, [])
  | c :: rest =>
    if c = 'e' ∨ c = 'E' then
      let sg := (parseSign rest).1
      let rest2 := (parseSign rest).2
      let ds := (takeDigits rest2).1
      let rest3 := (takeDigits rest2).2
      if ds = [] then none else some (sg * (digitsToNat ds : Int), rest3)
    else some (0, c :: rest)

/-- Python's builtin `float(s)` conversion, modelled exactly over the
finite decimal-literal grammar (surrounding whitespace, optional sign,
digits with optional decimal point, optional exponent); `none` when the
string does not parse as a floating-point literal. The resulting exact
rational `(sign * mantissa) * 10 ^ exponent` is assembled with
`Rat.divInt` over integer arithmetic. -/
def pyFloat (s : String) : Option ℚ :=
  let l := (pyStrip s).data
  let sg := (parseSign l).1
  let l1 := (parseSign l).2
  match parseMantissa l1 with
  | none => none
  | some (n, d, rest) =>
    match parseExp rest with
    | none => none
    | some (e, rest2) =>
      if rest2 = [] then
        if 0 ≤ e then
          some (Rat.divInt (sg * (n : Int) * (10 : Int) ^ e.toNat) (d : Int))
        else
          some (Rat.divInt (sg * (n : Int)) ((d : Int) * (10 : Int) ^ (-e).toNat))
      else none

/-- The comparison value of `apply_filter`: a number when the value
string parses as a float, otherwise the raw string. -/
inductive Value where
  | num (q : ℚ)
  | str (s : String)
  deriving Repr, DecidableEq

/-- Strict lexicographic order on character lists by code point:
Python's `<` on strings. -/
def lexLt : List Char → List Char → Bool
  | [], [] => false
  | [], _ :: _ => true
  | _ :: _, [] => false
  | a :: as, b :: bs =>
    if a < b then true else if b < a then false else lexLt as bs

/-- The comparison dispatch of the filter loop (lines 104–114) for a
numeric comparison value. -/
def compareNum (op : String) (cell v : ℚ) : Bool :=
  if op = ">" then decide (v < cell)
  else if op = "<" then decide (cell < v)
  else if op = ">=" then decide (v ≤ cell)
  else if op = "<=" then decide (cell ≤ v)
  else if op = "==" then cell == v
  else false

/-- The comparison dispatch of the filter loop for a string comparison
value: Python compares strings lexicographically by code point. -/
def compareStr (op : String) (cell v : String) : Bool :=
  if op = ">" then lexLt v.data cell.data
  else if op = "<" then lexLt cell.data v.data
  else if op = ">=" then !lexLt cell.data v.data
  else if op = "<=" then !lexLt v.data cell.data
  else if op = "==" then cell == v
  else false

/-- The row loop of `apply_filter` (lines 92–116): for each row, fetch
the cell, coerce it to a number when the comparison value is numeric
(exiting on the first non-coercible cell), and keep the row when the
comparison holds. -/
def filterRows (column op : String) (v : Value) : List Row → Except Err (List Row)
  | [] => Except.ok []
  | row :: rest =>
    match row.get column with
    | none => Except.error (Err.keyError column)
    | some cell =>
      match v with
      | Value.num q =>
        match pyFloat cell with
        | none => Except.error (Err.nonNumericCell cell column)
        | some cq =>
          match filterRows column op v rest with
          | Except.error e => Except.error e
          | Except.ok tail =>
            Except.ok (if compareNum op cq q then row :: tail else tail)
      | Value.str sv =>
        match filterRows column op v rest with
        | Except.error e => Except.error e
        | Except.ok tail =>
          Except.ok (if compareStr op cell sv then row :: tail else tail)

/-- Function `apply_filter` of `script.py` (lines 64–116). `sys.exit`
calls are errors; `data[0]` on an empty list is Python's `IndexError`. -/
def apply_filter (data : List Row) (condition_str : String) : Except Err (List Row) :=
  match parse_condition condition_str with
  | Except.error e => Except.error e
  | Except.ok (column, op, value_str) =>
    match data with
    | [] => Except.error Err.indexError
    | first :: _ =>
      if first.hasCol column then
        let v : Value :=
          match pyFloat value_str with
          | some q => Value.num q
          | none => Value.str value_str
        filterRows column op v data
      else Except.error (Err.unknownColumn column)

/-- The value-collection loop of `apply_aggregation` (lines 139–146):
parse every cell of the target column as a number, exiting on the
first failure. -/
def collectValues (column : String) : List Row → Except Err (List ℚ)
  | [] => Except.ok []
  | row :: rest =>
    match row.get column with
    | none => Except.error (Err.keyError column)
    | some cell =>
      match pyFloat cell with
      | none => Except.error (Err.nonNumericColumn cell column)
      | some q =>
        match collectValues column rest with
        | Except.error e => Except.error e
        | Except.ok tail => Except.ok (q :: tail)

/-- Function `apply_aggregation` of `script.py` (lines 119–160). -/
def apply_aggregation (data : List Row) (aggregation_str : String) : Except Err ℚ :=
  match parse_aggregation aggregation_str with
  | Except.error e => Except.error e
  | Except.ok (fn, column) =>
    match data with
    | [] => Except.error Err.indexError
    | first :: _ =>
      if first.hasCol column then
        match collectValues column data with
        | Except.error e => Except.error e
        | Except.ok values =>
          match values with
          | [] => Except.ok 0
          | v :: vs =>
            if fn = "avg" then
              Except.ok ((v :: vs).sum / ((v :: vs).length : ℚ))
            else if fn = "min" then Except.ok (vs.foldl min v)
            else if fn = "max" then Except.ok (vs.foldl max v)
            else Except.ok 0
      else Except.error (Err.unknownColumn column)

deriving instance DecidableEq for Except

/-- Specification-side row predicate for a numeric comparison value:
the row's cell parses as a number satisfying the comparison. -/
def numSat (col op : String) (q : ℚ) (r : Row) : Bool :=
  match pyFloat (Row.cell r col) with
  | some cq => compareNum op cq q
  | none => false

/-- Specification-side row predicate: what it means for a row to
satisfy a parsed condition `(col, op, v)`. -/
def rowSat (col op v : String) (r : Row) : Bool :=
  match pyFloat v with
  | some q => numSat col op q r
  | none => compareStr op (Row.cell r col) v

/-- Specification-side parsed values of a column, read off row by row
(meaningful when every cell of the column parses as a number). -/
def columnValues (data : List Row) (col : String) : List ℚ :=
  data.map (fun r => (pyFloat (Row.cell r col)).getD 0)

/-- First sample row of the repository's test fixture. -/
def row1 : Row :=
  [("name", "iphone 15 pro"), ("brand", "apple"), ("price", "999"), ("rating", "4.9")]

/-- Second sample row of the repository's test fixture. -/
def row2 : Row :=
  [("name", "galaxy s23 ultra"), ("brand", "samsung"), ("price", "1199"), ("rating", "4.8")]

/-- Third sample row of the repository's test fixture. -/
def row3 : Row :=
  [("name", "redmi note 12"), ("brand", "xiaomi"), ("price", "199"), ("rating", "4.6")]

/-- Fourth sample row of the repository's test fixture. -/
def row4 : Row :=
  [("name", "poco x5 pro"), ("brand", "xiaomi"), ("price", "299"), ("rating", "4.4")]

/-- The four-row dataset of the repository's test fixture. -/
def sampleData : List Row := [row1, row2, row3, row4]

/-- Absence of a substring makes the single split fail. -/
lemma pySplitOnce_eq_none_of_not_contains {s p : String}
    (h : strContains s p = false) : pySplitOnce s p = none := by
  unfold strContains at h
  cases hsp : pySplitOnce s p with
  | none => rfl
  | some t => rw [hsp] at h; simp at h

/-- Key membership agrees with lookup success on a row. -/
lemma hasCol_eq_isSome (r : Row) (c : String) :
    Row.hasCol r c = (Row.get r c).isSome := by
  induction r with
  | nil => rfl
  | cons p rest ih =>
    unfold Row.hasCol Row.get
    cases h : (p.1 == c) with
    | true => simp [List.any_cons, h, List.find?_cons_of_pos _ h]
    | false =>
      unfold Row.hasCol Row.get at ih
      simp [List.any_cons, h, List.find?_cons_of_neg, ih]

/-- If some operator of the list occurs in the string, the operator
loop succeeds. -/
lemma condLoop_isSome (ops : List String) (s : String)
    (h : ∃ op ∈ ops, strContains s op = true) :
    ∃ t, condLoop ops s = some t := by
  induction ops with
  | nil => simp at h
  | cons op rest ih =>
    unfold condLoop
    cases hsp : pySplitOnce s op with
    | some lr => exact ⟨_, rfl⟩
    | none =>
      apply ih
      obtain ⟨o, ho, hc⟩ := h
      rcases List.mem_cons.mp ho with heq | hmem
      · subst heq
        unfold strContains at hc
        rw [hsp] at hc
        simp at hc
      · exact ⟨o, hmem, hc⟩

/-- The operator returned by the loop is a (normalized) member of the
operator list it was given. -/
lemma condLoop_op_mem (ops : List String) (s : String) (c o v : String)
    (h : condLoop ops s = some (c, o, v)) :
    ∃ op ∈ ops, o = if op = "=" then "==" else op := by
  induction ops with
  | nil => simp [condLoop] at h
  | cons op rest ih =>
    unfold condLoop at h
    cases hsp : pySplitOnce s op with
    | some lr =>
      rw [hsp] at h
      obtain ⟨l, r⟩ := lr
      simp at h
      exact ⟨op, List.mem_cons_self op rest, h.2.1.symm⟩
    | none =>
      rw [hsp] at h
      obtain ⟨o2, ho2, he⟩ := ih h
      exact ⟨o2, List.mem_cons_of_mem _ ho2, he⟩

/-- With a string comparison value the row loop never fails and keeps
exactly the rows whose cell compares lexicographically. -/
lemma filterRows_str_ok (col op v : String) (rows : List Row)
    (hall : ∀ r ∈ rows, (Row.get r col).isSome = true) :
    filterRows col op (Value.str v) rows =
      Except.ok (rows.filter (fun r => compareStr op (Row.cell r col) v)) := by
  induction rows with
  | nil => rfl
  | cons row rest ih =>
    obtain ⟨cell, hc⟩ := Option.isSome_iff_exists.mp (hall row (List.mem_cons_self _ _))
    have hcell : Row.cell row col = cell := by simp [Row.cell, hc]
    have ih2 := ih (fun r hr => hall r (List.mem_cons_of_mem _ hr))
    unfold filterRows
    simp only [hc, ih2, List.filter_cons, hcell]

/-- With a numeric comparison value and every cell numeric, the row
loop never fails and keeps exactly the rows satisfying `numSat`. -/
lemma filterRows_num_ok (col op : String) (q : ℚ) (rows : List Row)
    (hall : ∀ r ∈ rows, (Row.get r col).isSome = true)
    (hnum : ∀ r ∈ rows, (pyFloat (Row.cell r col)).isSome = true) :
    filterRows col op (Value.num q) rows =
      Except.ok (rows.filter (numSat col op q)) := by
  induction rows with
  | nil => rfl
  | cons row rest ih =>
    obtain ⟨cell, hc⟩ := Option.isSome_iff_exists.mp (hall row (List.mem_cons_self _ _))
    have hcell : Row.cell row col = cell := by simp [Row.cell, hc]
    obtain ⟨cq, hcq⟩ := Option.isSome_iff_exists.mp (hnum row (List.mem_cons_self _ _))
    rw [hcell] at hcq
    have ih2 := ih (fun r hr => hall r (List.mem_cons_of_mem _ hr))
      (fun r hr => hnum r (List.mem_cons_of_mem _ hr))
    have hsat : numSat col op q row = compareNum op cq q := by
      simp [numSat, hcell, hcq]
    unfold filterRows
    simp only [hc, hcq, ih2, List.filter_cons, hsat]

/-- With a numeric comparison value the row loop fails on the first row
whose cell is not numeric, naming that cell. -/
lemma filterRows_num_err (col op : String) (q : ℚ) (rows : List Row) (bad : Row)
    (hall : ∀ r ∈ rows, (Row.get r col).isSome = true)
    (hbad : rows.find? (fun r => (pyFloat (Row.cell r col)).isNone) = some bad) :
    filterRows col op (Value.num q) rows =
      Except.error (Err.nonNumericCell (Row.cell bad col) col) := by
  induction rows with
  | nil => simp [List.find?] at hbad
  | cons row rest ih =>
    obtain ⟨cell, hc⟩ := Option.isSome_iff_exists.mp (hall row (List.mem_cons_self _ _))
    have hcell : Row.cell row col = cell := by simp [Row.cell, hc]
    cases hopt : pyFloat (Row.cell row col) with
    | none =>
      have hb : bad = row := by
        rw [List.find?_cons_of_pos _ (by simp [hopt])] at hbad
        simpa using hbad.symm
      subst hb
      have hnone : pyFloat cell = none := by rw [← hcell]; exact hopt
      unfold filterRows
      simp [hc, hnone, hcell]
    | some cq =>
      rw [List.find?_cons_of_neg _ (by simp [hopt])] at hbad
      have hcq : pyFloat cell = some cq := by rw [← hcell]; exact hopt
      have ih2 := ih (fun r hr => hall r (List.mem_cons_of_mem _ hr)) hbad
      unfold filterRows
      simp [hc, hcq, ih2]

/-- With every cell numeric the value-collection loop returns exactly
the parsed column values. -/
lemma collectValues_ok (col : String) (rows : List Row)
    (hall : ∀ r ∈ rows, (Row.get r col).isSome = true)
    (hnum : ∀ r ∈ rows, (pyFloat (Row.cell r col)).isSome = true) :
    collectValues col rows = Except.ok (columnValues rows col) := by
  induction rows with
  | nil => rfl
  | cons row rest ih =>
    obtain ⟨cell, hc⟩ := Option.isSome_iff_exists.mp (hall row (List.mem_cons_self _ _))
    have hcell : Row.cell row col = cell := by simp [Row.cell, hc]
    obtain ⟨cq, hcq⟩ := Option.isSome_iff_exists.mp (hnum row (List.mem_cons_self _ _))
    rw [hcell] at hcq
    have ih2 := ih (fun r hr => hall r (List.mem_cons_of_mem _ hr))
      (fun r hr => hnum r (List.mem_cons_of_mem _ hr))
    unfold collectValues
    simp only [hc, hcq, ih2]
    simp [columnValues, hcell, hcq]

/-- The value-collection loop fails on the first row whose cell is not
numeric, naming that cell. -/
lemma collectValues_err (col : String) (rows : List Row) (bad : Row)
    (hall : ∀ r ∈ rows, (Row.get r col).isSome = true)
    (hbad : rows.find? (fun r => (pyFloat (Row.cell r col)).isNone) = some bad) :
    collectValues col rows =
      Except.error (Err.nonNumericColumn (Row.cell bad col) col) := by
  induction rows with
  | nil => simp [List.find?] at hbad
  | cons row rest ih =>
    obtain ⟨cell, hc⟩ := Option.isSome_iff_exists.mp (hall row (List.mem_cons_self _ _))
    have hcell : Row.cell row col = cell := by simp [Row.cell, hc]
    cases hopt : pyFloat (Row.cell row col) with
    | none =>
      have hb : bad = row := by
        rw [List.find?_cons_of_pos _ (by simp [hopt])] at hbad
        simpa using hbad.symm
      subst hb
      have hnone : pyFloat cell = none := by rw [← hcell]; exact hopt
      unfold collectValues
      simp [hc, hnone, hcell]
    | some cq =>
      rw [List.find?_cons_of_neg _ (by simp [hopt])] at hbad
      have hcq : pyFloat cell = some cq := by rw [← hcell]; exact hopt
      have ih2 := ih (fun r hr => hall r (List.mem_cons_of_mem _ hr)) hbad
      unfold collectValues
      simp [hc, hcq, ih2]

/-- Under no containment of any operator the loop fails. -/
lemma condLoop_none (ops : List String) (s : String)
    (h : ∀ op ∈ ops, strContains s op = false) :
    condLoop ops s = none := by
  induction ops with
  | nil => rfl
  | cons op rest ih =>
    unfold condLoop
    rw [pySplitOnce_eq_none_of_not_contains (h op (List.mem_cons_self _ _))]
    exact ih (fun o ho => h o (List.mem_cons_of_mem _ ho))

/-- C1: the claim states that `apply_aggregation` over an empty dataset
returns `0.0` for all of avg, min and max. On the code, the
column-existence check `column not in data[0]` evaluates `data[0]`
before the empty-dataset special case is reached, so the call dies with
an uncaught `IndexError` instead of returning `0.0`; the explicit
`if not values: return 0.0` branch is unreachable. -/
theorem C1_empty_dataset_aggregation_index_error :
    apply_aggregation [] "avg=price" = Except.error Err.indexError ∧
    apply_aggregation [] "min=price" = Except.error Err.indexError ∧
    apply_aggregation [] "max=price" = Except.error Err.indexError :=
  ⟨rfl, rfl, rfl⟩

/-- C2 counterexample: with the non-numeric comparison value `a` and
operator `>`, `apply_filter` keeps the row whose cell `b` is
lexicographically greater than the value, so the result is not the
empty dataset claimed. -/
theorem C2_counterexample_string_order_matches_row :
    apply_filter [[("b", "b")]] "b>a" = Except.ok [[("b", "b")]] ∧
    apply_filter [[("b", "b")]] "b>a" ≠ Except.ok [] := by
  constructor
  · decide
  · decide

/-- C2 (amended): when the comparison value does not parse as a float
and the column exists in every row, `apply_filter` with `>`, `<`, `>=`
or `<=` raises no error and keeps exactly the rows whose cell string
compares lexicographically (by code point) with the value string; it
matches zero rows only when no cell so compares, not always. -/
theorem C2_string_comparison_filters_lexicographically
    (first : Row) (rest : List Row) (s col op v : String)
    (hparse : parse_condition s = Except.ok (col, op, v))
    (hop : op ∈ ([">", "<", ">=", "<="] : List String))
    (hv : pyFloat v = none)
    (hall : ∀ r ∈ first :: rest, (Row.get r col).isSome = true) :
    apply_filter (first :: rest) s =
      Except.ok ((first :: rest).filter (fun r => compareStr op (Row.cell r col) v)) := by
  have hfc : Row.hasCol first col = true := by
    rw [hasCol_eq_isSome]; exact hall first (List.mem_cons_self _ _)
  simp only [apply_filter, hparse, hfc, hv, if_true]
  exact filterRows_str_ok col op v (first :: rest) hall

/-- C2 witness: a concrete lexicographic match kept by the filter. -/
theorem C2_witness_string_less_than :
    apply_filter [[("s", "banana")]] "s<cherry" = Except.ok [[("s", "banana")]] :=
  C2_string_comparison_filters_lexicographically [("s", "banana")] [] "s<cherry"
    "s" "<" "cherry" (by decide) (by decide) (by decide) (by decide)

/-- C3 counterexample: an operator with an empty side still parses:
`price>` and `>500` succeed instead of failing with
`MalformedCondition` as the claim states. -/
theorem C3_counterexample_empty_side_parses :
    parse_condition "price>" = Except.ok ("price", ">", "") ∧
    parse_condition ">500" = Except.ok ("", ">", "500") :=
  ⟨rfl, rfl⟩

/-- C3 (amended): when an operator token occurs, Python's
`split(op, 1)` always yields exactly two parts, so `parse_condition`
always succeeds on such inputs, returning the trimmed parts even when
one of them is empty; it does not fail. -/
theorem C3_operator_split_always_succeeds (s op : String)
    (hop : op ∈ operators) (hc : strContains s op = true) :
    ∃ t, parse_condition s = Except.ok t := by
  obtain ⟨t, ht⟩ := condLoop_isSome operators s ⟨op, hop, hc⟩
  exact ⟨t, by unfold parse_condition; rw [ht]⟩

/-- C3 witness: a trailing operator still parses. -/
theorem C3_witness_trailing_operator :
    ∃ t, parse_condition "price>" = Except.ok t :=
  C3_operator_split_always_succeeds "price>" ">" (by decide) (by decide)

/-- C4: if no operator token occurs in the input, `parse_condition`
fails with `MalformedCondition`; and `price>>500` parses successfully
because `>` is found as a substring and the string is split at its
first occurrence. -/
theorem C4_no_operator_fails_but_double_gt_parses :
    (∀ s : String, (∀ op ∈ operators, strContains s op = false) →
      parse_condition s = Except.error (Err.malformedCondition s)) ∧
    parse_condition "price>>500" = Except.ok ("price", ">", ">500") := by
  constructor
  · intro s h
    unfold parse_condition
    rw [condLoop_none operators s h]
  · rfl

/-- C4 witness: an operator-free input fails as claimed. -/
theorem C4_witness_no_operator :
    parse_condition "price" = Except.error (Err.malformedCondition "price") :=
  C4_no_operator_fails_but_double_gt_parses.1 "price" (by decide)

/-- C5: whenever some operator token occurs, `parse_condition`
succeeds and the returned operator is one of `>`, `<`, `>=`, `<=`,
`==` (a bare `=` having been normalized to `==`); two-character
operators are matched before their single-character prefixes, so
`rating>=4.5` parses to `("rating", ">=", "4.5")` and `a=b`
normalizes to `("a", "==", "b")`. -/
theorem C5_operator_priority_and_normalization :
    (∀ s op, op ∈ operators → strContains s op = true →
      ∃ col o v, parse_condition s = Except.ok (col, o, v) ∧
        o ∈ ([">", "<", ">=", "<=", "=="] : List String)) ∧
    parse_condition "rating>=4.5" = Except.ok ("rating", ">=", "4.5") ∧
    parse_condition "a=b" = Except.ok ("a", "==", "b") := by
  refine ⟨?_, rfl, rfl⟩
  intro s op hop hc
  obtain ⟨⟨c, o, v⟩, ht⟩ := condLoop_isSome operators s ⟨op, hop, hc⟩
  refine ⟨c, o, v, by unfold parse_condition; rw [ht], ?_⟩
  obtain ⟨op2, hop2, he⟩ := condLoop_op_mem operators s c o v ht
  subst he
  simp only [operators, List.mem_cons, List.not_mem_nil, or_false] at hop2
  rcases hop2 with rfl | rfl | rfl | rfl | rfl | rfl <;> decide

/-- C5 witness: `price>500` parses with an allowed operator. -/
theorem C5_witness_simple_condition :
    ∃ col o v, parse_condition "price>500" = Except.ok (col, o, v) ∧
      o ∈ ([">", "<", ">=", "<=", "=="] : List String) :=
  C5_operator_priority_and_normalization.1 "price>500" ">" (by decide) (by decide)

/-- C6 counterexample: a condition on a column present in the dataset
whose numeric comparison meets a non-numeric cell makes `apply_filter`
fail rather than return a dataset of satisfying rows. -/
theorem C6_counterexample_non_numeric_cell_fails :
    apply_filter [[("a", "x")]] "a>5" =
      Except.error (Err.nonNumericCell "x" "a") := by decide

/-- C6 (amended): for a non-empty dataset and a condition on a column
present in every row, provided no cell coercion fails (the comparison
value is a string, or every cell of the column parses as a float),
`apply_filter` returns exactly the rows satisfying the condition in
their original order; consequently a condition satisfied by all rows
returns the input dataset unchanged. -/
theorem C6_filter_keeps_exactly_satisfying_rows
    (first : Row) (rest : List Row) (s col op v : String)
    (hparse : parse_condition s = Except.ok (col, op, v))
    (hall : ∀ r ∈ first :: rest, (Row.get r col).isSome = true)
    (hnum : ∀ q, pyFloat v = some q →
      ∀ r ∈ first :: rest, (pyFloat (Row.cell r col)).isSome = true) :
    apply_filter (first :: rest) s =
      Except.ok ((first :: rest).filter (rowSat col op v)) ∧
    ((∀ r ∈ first :: rest, rowSat col op v r = true) →
      apply_filter (first :: rest) s = Except.ok (first :: rest)) := by
  have hfc : Row.hasCol first col = true := by
    rw [hasCol_eq_isSome]; exact hall first (List.mem_cons_self _ _)
  have hmain : apply_filter (first :: rest) s =
      Except.ok ((first :: rest).filter (rowSat col op v)) := by
    cases hv : pyFloat v with
    | none =>
      have hfun : rowSat col op v = fun r => compareStr op (Row.cell r col) v := by
        funext r; simp [rowSat, hv]
      rw [hfun]
      simp only [apply_filter, hparse, hfc, hv, if_true]
      exact filterRows_str_ok col op v (first :: rest) hall
    | some q =>
      have hfun : rowSat col op v = numSat col op q := by
        funext r; simp [rowSat, hv]
      rw [hfun]
      simp only [apply_filter, hparse, hfc, hv, if_true]
      exact filterRows_num_ok col op q (first :: rest) hall (hnum q hv)
  exact ⟨hmain, fun hsat => by rw [hmain, List.filter_eq_self.mpr hsat]⟩

/-- C6 witness: `price>500` over the fixture keeps exactly the first
two rows, in order. -/
theorem C6_witness_price_filter :
    apply_filter sampleData "price>500" = Except.ok [row1, row2] :=
  (C6_filter_keeps_exactly_satisfying_rows row1 [row2, row3, row4] "price>500"
    "price" ">" "500" (by decide) (by decide) (fun _ _ => by decide)).1

/-- C8: with a numeric comparison value (for the filter), the first
row whose cell under the target column does not coerce to a number
makes the whole call fail, naming that cell: `apply_filter` with
`NonNumericCell` and `apply_aggregation` with `NonNumericColumn`; no
partial result is produced and no row is skipped. -/
theorem C8_first_non_numeric_cell_is_fatal
    (first : Row) (rest : List Row) (bad : Row) :
    (∀ s col op v q, parse_condition s = Except.ok (col, op, v) →
      pyFloat v = some q →
      (∀ r ∈ first :: rest, (Row.get r col).isSome = true) →
      (first :: rest).find? (fun r => (pyFloat (Row.cell r col)).isNone) = some bad →
      apply_filter (first :: rest) s =
        Except.error (Err.nonNumericCell (Row.cell bad col) col)) ∧
    (∀ s fn col, parse_aggregation s = Except.ok (fn, col) →
      (∀ r ∈ first :: rest, (Row.get r col).isSome = true) →
      (first :: rest).find? (fun r => (pyFloat (Row.cell r col)).isNone) = some bad →
      apply_aggregation (first :: rest) s =
        Except.error (Err.nonNumericColumn (Row.cell bad col) col)) := by
  constructor
  · intro s col op v q hparse hv hall hbad
    have hfc : Row.hasCol first col = true := by
      rw [hasCol_eq_isSome]; exact hall first (List.mem_cons_self _ _)
    simp only [apply_filter, hparse, hfc, hv, if_true]
    exact filterRows_num_err col op q (first :: rest) bad hall hbad
  · intro s fn col hparse hall hbad
    have hfc : Row.hasCol first col = true := by
      rw [hasCol_eq_isSome]; exact hall first (List.mem_cons_self _ _)
    have hce := collectValues_err col (first :: rest) bad hall hbad
    simp only [apply_aggregation, hparse, hfc, hce, if_true]

/-- C8 witness: the second row's cell `x` is the first non-numeric
cell and is named in the error. -/
theorem C8_witness_first_bad_cell :
    apply_filter [[("a", "1")], [("a", "x")]] "a>0" =
      Except.error (Err.nonNumericCell "x" "a") :=
  (C8_first_non_numeric_cell_is_fatal [("a", "1")] [[("a", "x")]] [("a", "x")]).1
    "a>0" "a" ">" "0" 0 (by decide) (by decide) (by decide) (by decide)

/-- Successful-aggregation characterization: over a non-empty dataset
with a fully numeric target column, `apply_aggregation` returns the
arithmetic mean of the parsed column values for `avg`, their minimum
for `min`, and their maximum for `max`. -/
lemma apply_aggregation_ok (first : Row) (rest : List Row) (s fn col : String)
    (hparse : parse_aggregation s = Except.ok (fn, col))
    (hall : ∀ r ∈ first :: rest, (Row.get r col).isSome = true)
    (hnum : ∀ r ∈ first :: rest, (pyFloat (Row.cell r col)).isSome = true) :
    (fn = "avg" → apply_aggregation (first :: rest) s =
      Except.ok ((columnValues (first :: rest) col).sum /
        ((columnValues (first :: rest) col).length : ℚ))) ∧
    (fn = "min" → ∃ q, (columnValues (first :: rest) col).min? = some q ∧
      apply_aggregation (first :: rest) s = Except.ok q) ∧
    (fn = "max" → ∃ q, (columnValues (first :: rest) col).max? = some q ∧
      apply_aggregation (first :: rest) s = Except.ok q) := by
  have hfc : Row.hasCol first col = true := by
    rw [hasCol_eq_isSome]; exact hall first (List.mem_cons_self _ _)
  have hcv := collectValues_ok col (first :: rest) hall hnum
  have hcons : columnValues (first :: rest) col =
      ((pyFloat (Row.cell first col)).getD 0) :: columnValues rest col := rfl
  refine ⟨?_, ?_, ?_⟩
  · intro h
    subst h
    simp only [apply_aggregation, hparse, hfc, hcv, hcons, if_true, if_pos rfl]
  · intro h
    subst h
    refine ⟨(columnValues rest col).foldl min ((pyFloat (Row.cell first col)).getD 0),
      by rw [hcons]; rfl, ?_⟩
    simp only [apply_aggregation, hparse, hfc, hcv, hcons, if_true]
    rw [if_neg (by decide)]
  · intro h
    subst h
    refine ⟨(columnValues rest col).foldl max ((pyFloat (Row.cell first col)).getD 0),
      by rw [hcons]; rfl, ?_⟩
    simp only [apply_aggregation, hparse, hfc, hcv, hcons, if_true]
    rw [if_neg (by decide), if_neg (by decide)]

/-- C7: over a non-empty dataset whose target column is fully numeric,
`apply_aggregation` computes the arithmetic mean for `avg`, the
minimum for `min` and the maximum for `max` of the parsed values; over
the fixture prices `999, 1199, 199, 299`, `avg` yields `674` and `max`
yields `1199`. -/
theorem C7_aggregation_mean_min_max :
    (∀ (first : Row) (rest : List Row) (s fn col : String),
      parse_aggregation s = Except.ok (fn, col) →
      (∀ r ∈ first :: rest, (Row.get r col).isSome = true) →
      (∀ r ∈ first :: rest, (pyFloat (Row.cell r col)).isSome = true) →
      (fn = "avg" → apply_aggregation (first :: rest) s =
        Except.ok ((columnValues (first :: rest) col).sum /
          ((columnValues (first :: rest) col).length : ℚ))) ∧
      (fn = "min" → ∃ q, (columnValues (first :: rest) col).min? = some q ∧
        apply_aggregation (first :: rest) s = Except.ok q) ∧
      (fn = "max" → ∃ q, (columnValues (first :: rest) col).max? = some q ∧
        apply_aggregation (first :: rest) s = Except.ok q)) ∧
    apply_aggregation sampleData "avg=price" = Except.ok (674 : ℚ) ∧
    apply_aggregation sampleData "max=price" = Except.ok (1199 : ℚ) := by
  refine ⟨apply_aggregation_ok, ?_, by decide⟩
  have h := (apply_aggregation_ok row1 [row2, row3, row4] "avg=price" "avg" "price"
    (by decide) (by decide) (by decide)).1 rfl
  rw [show sampleData = row1 :: [row2, row3, row4] from rfl, h]
  have hcv : columnValues (row1 :: [row2, row3, row4]) "price" =
      [999, 1199, 199, 299] := by decide
  rw [hcv]
  refine congrArg Except.ok ?_
  rw [show (([999, 1199, 199, 299] : List ℚ).length : ℚ) = 4 by decide]
  rw [show ([999, 1199, 199, 299] : List ℚ).sum = 999 + (1199 + (199 + (299 + 0))) from rfl]
  norm_num

/-- C7 witness: `max=price` over the fixture returns the maximum of
the parsed column values. -/
theorem C7_witness_max_price :
    ∃ q, (columnValues sampleData "price").max? = some q ∧
      apply_aggregation sampleData "max=price" = Except.ok q :=
  (C7_aggregation_mean_min_max.1 row1 [row2, row3, row4] "max=price" "max" "price"
    (by decide) (by decide) (by decide)).2.2 rfl

/-- C9: `parse_aggregation` fails with `MalformedAggregation` when no
`=` occurs, fails with `UnsupportedFunction` when the lower-cased
trimmed function name before the first `=` is not `avg`/`min`/`max`,
and otherwise returns the lower-cased trimmed function name with the
trimmed column name; concretely, `avg=price` parses, `sum=price` is an
unsupported function, and `avg` is malformed. -/
theorem C9_parse_aggregation_contract :
    (∀ s, strContains s "=" = false →
      parse_aggregation s = Except.error (Err.malformedAggregation s)) ∧
    (∀ s l r, pySplitOnce s "=" = some (l, r) →
      (pyLower (pyStrip l) ∈ (["avg", "min", "max"] : List String) →
        parse_aggregation s = Except.ok (pyLower (pyStrip l), pyStrip r)) ∧
      (pyLower (pyStrip l) ∉ (["avg", "min", "max"] : List String) →
        parse_aggregation s = Except.error (Err.unsupportedFunction (pyLower (pyStrip l))))) ∧
    parse_aggregation "avg=price" = Except.ok ("avg", "price") ∧
    parse_aggregation "sum=price" = Except.error (Err.unsupportedFunction "sum") ∧
    parse_aggregation "avg" = Except.error (Err.malformedAggregation "avg") := by
  refine ⟨?_, ?_, rfl, rfl, rfl⟩
  · intro s h
    unfold parse_aggregation
    rw [pySplitOnce_eq_none_of_not_contains h]
  · intro s l r h
    constructor
    · intro hm
      have hm2 : pyLower (pyStrip l) = "avg" ∨ pyLower (pyStrip l) = "min" ∨
          pyLower (pyStrip l) = "max" := by simpa using hm
      simp only [parse_aggregation, h]
      rw [if_pos hm2]
    · intro hm
      have hm2 : ¬(pyLower (pyStrip l) = "avg" ∨ pyLower (pyStrip l) = "min" ∨
          pyLower (pyStrip l) = "max") := by simpa using hm
      simp only [parse_aggregation, h]
      rw [if_neg hm2]

/-- C9 witness: an input with no equals sign is malformed. -/
theorem C9_witness_no_equals :
    parse_aggregation "foo" = Except.error (Err.malformedAggregation "foo") :=
  C9_parse_aggregation_contract.1 "foo" (by decide)

/-- C10: over a non-empty dataset, both `apply_filter` and
`apply_aggregation` fail with `UnknownColumn` when the parsed column is
absent from the first row's keys — the membership check looks only at
the first row, whatever the remaining rows contain. -/
theorem C10_unknown_column_checked_on_first_row :
    (∀ (first : Row) (rest : List Row) (s col op v : String),
      parse_condition s = Except.ok (col, op, v) →
      Row.hasCol first col = false →
      apply_filter (first :: rest) s = Except.error (Err.unknownColumn col)) ∧
    (∀ (first : Row) (rest : List Row) (s fn col : String),
      parse_aggregation s = Except.ok (fn, col) →
      Row.hasCol first col = false →
      apply_aggregation (first :: rest) s = Except.error (Err.unknownColumn col)) := by
  constructor
  · intro first rest s col op v hparse hfc
    simp only [apply_filter, hparse, hfc, Bool.false_eq_true, if_false]
  · intro first rest s fn col hparse hfc
    simp only [apply_aggregation, hparse, hfc, Bool.false_eq_true, if_false]

/-- C10 witness: filtering the fixture on an absent column fails. -/
theorem C10_witness_invalid_column :
    apply_filter sampleData "invalid>500" = Except.error (Err.unknownColumn "invalid") :=
  C10_unknown_column_checked_on_first_row.1 row1 [row2, row3, row4] "invalid>500"
    "invalid" ">" "500" (by decide) (by decide)
